import Mathlib

/-!
Shallow embedding of the example programs of the repository
`Cpp11-14-17-20-23-examples`. Each C++ source file is embedded as a
namespace holding the functions it defines and a model of its `main`:
`mainLines` is the list of lines the program writes to standard output
(one list element per line, the terminating newline implied) and
`mainRet` is the value `main` returns. C++ `int` is modelled as `Int`
and C++ integer division (truncation toward zero) as `Int.tdiv`.
Outputs that depend on the runtime environment (measured time, the
current directory, the text produced for a floating-point value by the
iostream formatter, the size of a moved-from vector) are taken as
parameters of `mainLines`.
-/

/-! Source file cpp11/constexpr.cpp -/

namespace Cpp11Constexpr

/-- Embeds `constexpr int factorial(int n) { return n <= 1 ? 1 : n * factorial(n - 1); }` -/
def factorial (n : Int) : Int :=
  if n ≤ 1 then 1 else n * factorial (n - 1)
termination_by n.toNat
decreasing_by simp_wf; omega

/-- The program prints `factorial(5)` on one line and returns 0. -/
def mainLines : List String := [toString (factorial 5)]

def mainRet : Int := 0

end Cpp11Constexpr

/-! Source file cpp17/optional.cpp -/

namespace Cpp17Optional

/-- Embeds `std::optional<int> divide(int a, int b)`: empty on `b == 0`, else `a / b`. -/
def divide (a b : Int) : Option Int :=
  if b = 0 then none else some (Int.tdiv a b)

/-- Same function with the division operation abstracted, to reason about
which inputs the division is actually evaluated on. -/
def divideWith (d : Int → Int → Int) (a b : Int) : Option Int :=
  if b = 0 then none else some (d a b)

/-- The program prints `Result: <*result>` only when `divide(10, 2)` holds a value. -/
def mainLines : List String :=
  match divide 10 2 with
  | some r => ["Result: " ++ toString r]
  | none => []

def mainRet : Int := 0

end Cpp17Optional

/-! Source file cpp23/expected.cpp -/

namespace Cpp23Expected

/-- Embeds `std::expected<int, std::string> divide(int a, int b)`:
`unexpected("Division by zero")` on `b == 0`, else `a / b`. -/
def divide (a b : Int) : Except String Int :=
  if b = 0 then Except.error "Division by zero" else Except.ok (Int.tdiv a b)

/-- Same function with the division operation abstracted. -/
def divideWith (d : Int → Int → Int) (a b : Int) : Except String Int :=
  if b = 0 then Except.error "Division by zero" else Except.ok (d a b)

/-- The program prints the value or the error of `divide(10, 2)`. -/
def mainLines : List String :=
  match divide 10 2 with
  | Except.ok r => ["Result: " ++ toString r]
  | Except.error e => ["Error: " ++ e]

def mainRet : Int := 0

end Cpp23Expected

/-! Source file cpp23/optional_monadic.cpp -/

namespace Cpp23OptionalMonadic

/-- Embeds `std::optional<int> safe_divide(int a, int b)`: empty on `b == 0`, else `a / b`. -/
def safe_divide (a b : Int) : Option Int :=
  if b = 0 then none else some (Int.tdiv a b)

/-- Embeds `safe_divide` with the division operation abstracted. -/
def safe_divideWith (d : Int → Int → Int) (a b : Int) : Option Int :=
  if b = 0 then none else some (d a b)

/-- Embeds `std::optional<int>::and_then`: feed the held value to `f`, empty stays empty. -/
def and_then (o : Option Int) (f : Int → Option Int) : Option Int :=
  match o with
  | none => none
  | some v => f v

/-- Embeds `std::optional<int>::transform`: map `f` over the held value. -/
def transform (o : Option Int) (f : Int → Int) : Option Int :=
  match o with
  | none => none
  | some v => some (f v)

/-- Embeds `or_else` as used in the source: the fallback callable returns the plain
`int` 0, which is substituted exactly when the optional is empty; a held
value is returned unchanged. -/
def or_else (o : Option Int) (f : Unit → Int) : Int :=
  match o with
  | none => f ()
  | some v => v

/-- The chain before the final `or_else`:
`safe_divide(a, b).and_then([](int n){ return safe_divide(n, 2); }).transform([](int n){ return n * 2; })`. -/
def chain (a b : Int) : Option Int :=
  transform (and_then (safe_divide a b) (fun n => safe_divide n 2)) (fun n => n * 2)

/-- The whole chain of `main`, ending in `.or_else([](){ return 0; })`. -/
def result (a b : Int) : Int :=
  or_else (chain a b) (fun _ => 0)

/-- The program prints `Result: <result>` for `a = 10`, `b = 2` and returns 0. -/
def mainLines : List String := ["Result: " ++ toString (result 10 2)]

def mainRet : Int := 0

end Cpp23OptionalMonadic

/-! Source file cpp23/generator.cpp -/

namespace Cpp23Generator

/-- One resumption step of the `fibonacci` coroutine body: from state
`(a, b)` it yields `a` and continues with `(b, a + b)`
(`temp = a; a = b; b = temp + b`). -/
def step (s : Int × Int) : Int × Int := (s.2, s.1 + s.2)

/-- The coroutine state after `n` resumptions, starting from `a = 0, b = 1`. -/
def fibState : Nat → Int × Int
  | 0 => (0, 1)
  | n + 1 => step (fibState n)

/-- The loop of `main`: starting with countdown `idx` and generator state `s`,
consume one value per iteration and stop when the countdown reaches zero.
Returns the list of consumed values in order. -/
def loop : Nat → Int × Int → List Int
  | 0, _ => []
  | k + 1, s => s.1 :: loop k (step s)

/-- The values `main` consumes from the generator (`idx` starts at 10). -/
def taken : List Int := loop 10 (0, 1)

/-- The single output line: each consumed value followed by a space
(`std::cout << i << " "`), the line closed by `std::endl`. -/
def mainLine : String := String.join (taken.map (fun i => toString i ++ " "))

def mainLines : List String := [mainLine]

def mainRet : Int := 0

end Cpp23Generator

/-! Source file cpp14/shared_mutex.cpp -/

namespace Cpp14SharedMutex

/-- The lock mode a thread acquires on the `std::shared_mutex`. -/
inductive LockMode
  | shared
  | exclusive
deriving DecidableEq

/-- Embeds `reader()`: under the shared lock, print `Read: <shared_data>`;
`shared_data` is unchanged. Takes and returns the value of `shared_data`. -/
def reader (d : Int) : Int × String := (d, "Read: " ++ toString d)

/-- Embeds `writer()`: under the exclusive lock, increment `shared_data` and print
`Write: <shared_data>`. -/
def writer (d : Int) : Int × String := (d + 1, "Write: " ++ toString (d + 1))

/-- The two threads `main` spawns, tagged with the lock mode each acquires. -/
def threads : List (LockMode × (Int → Int × String)) :=
  [(LockMode.shared, reader), (LockMode.exclusive, writer)]

/-- One run of the program. The mutex makes the two critical sections atomic,
so a run is determined by which thread acquires the lock first
(`writerFirst`). `shared_data` starts at 0. Returns the final value of
`shared_data` and the two output lines in the order they were printed. -/
def run (writerFirst : Bool) : Int × List String :=
  if writerFirst then
    let (d1, l1) := writer 0
    let (d2, l2) := reader d1
    (d2, [l1, l2])
  else
    let (d1, l1) := reader 0
    let (d2, l2) := writer d1
    (d2, [l1, l2])

/-- Output lines of one run. -/
def mainLines (writerFirst : Bool) : List String := (run writerFirst).2

def mainRet : Int := 0

end Cpp14SharedMutex

/-! Source file cpp11/chrono.cpp -/

namespace Cpp11Chrono

/-- The program prints the measured duration; `t` is the formatted text the
iostream formatter produces for `diff.count()`, which depends on the clock. -/
def mainLines (t : String) : List String := ["Time taken: " ++ t ++ " s"]

def mainRet : Int := 0

end Cpp11Chrono

/-! Source file cpp11/lambda_expressions.cpp -/

namespace Cpp11LambdaExpressions

def v : List Int := [1, 2, 3, 4, 5]

/-- The loop over `v` prints each element followed by a space, then `endl`. -/
def mainLines : List String := [String.join (v.map (fun n => toString n ++ " "))]

def mainRet : Int := 0

end Cpp11LambdaExpressions

/-! Source file cpp11/move_semantics.cpp -/

namespace Cpp11MoveSemantics

/-- The program prints the sizes of `v2` and of the moved-from `v1`; the size of a
moved-from vector is valid but unspecified, so it is a parameter `k`. -/
def mainLines (k : Nat) : List String :=
  ["v2 size: " ++ toString 3, "v1 size: " ++ toString k]

def mainRet : Int := 0

end Cpp11MoveSemantics

/-! Source file cpp11/rvalue_references.cpp -/

namespace Cpp11RvalueReferences

/-- Embeds `foo(int&& x)` prints its argument. -/
def fooLine (x : Int) : String := "rvalue reference: " ++ toString x

def mainLines : List String := [fooLine 10]

def mainRet : Int := 0

end Cpp11RvalueReferences

/-! Source file cpp11/static_assert.cpp -/

namespace Cpp11StaticAssert

/-- Embeds `foo<int>()` only evaluates a compile-time assertion; nothing is printed. -/
def mainLines : List String := []

def mainRet : Int := 0

end Cpp11StaticAssert

/-! Source file cpp11/type_traits.cpp -/

namespace Cpp11TypeTraits

/-- Embeds `foo(T t)` prints whether `T` is an integral type. -/
def fooLine (integral : Bool) : String :=
  if integral then "T is integral" else "T is not integral"

/-- The program calls `foo(10)` (integral) and `foo(10.5)` (not integral). -/
def mainLines : List String := [fooLine true, fooLine false]

def mainRet : Int := 0

end Cpp11TypeTraits

/-! Source file cpp11/variadic_templates.cpp -/

namespace Cpp11VariadicTemplates

/-- Embeds `print(1, 2.5, "hello")` prints the arguments space-separated on one line;
`d` is the formatted text of the double literal `2.5`. -/
def mainLines (d : String) : List String :=
  [toString (1 : Int) ++ " " ++ d ++ " " ++ "hello"]

def mainRet : Int := 0

end Cpp11VariadicTemplates

/-! Source file cpp14/generic_lambdas.cpp -/

namespace Cpp14GenericLambdas

/-- The generic lambda at `int` arguments. -/
def lambdaInt (x y : Int) : Int := x + y

/-- The program prints `lambda(1, 2)` and `lambda(1.5, 2.7)`; `d` is the formatted
text of the double sum. -/
def mainLines (d : String) : List String := [toString (lambdaInt 1 2), d]

def mainRet : Int := 0

end Cpp14GenericLambdas

/-! Source file cpp14/variable_templates.cpp -/

namespace Cpp14VariableTemplates

/-- The program prints `pi<float>` and `pi<double>`; `f` and `d` are the formatted
texts the iostream formatter produces for them. -/
def mainLines (f d : String) : List String := [f, d]

def mainRet : Int := 0

end Cpp14VariableTemplates

/-! Source file cpp17/constexpr_if.cpp -/

namespace Cpp17ConstexprIf

/-- Embeds `get_value` on a non-pointer returns it; on a pointer dereferences it.
With `x = 42` and `p = &x` both calls yield 42. -/
def get_value_int (t : Int) : Int := t

def mainLines : List String :=
  [toString (get_value_int 42) ++ ", " ++ toString (get_value_int 42)]

def mainRet : Int := 0

end Cpp17ConstexprIf

/-! Source file cpp17/if_init.cpp -/

namespace Cpp17IfInit

def m : List (String × Int) := [("hello", 42)]

/-- Embeds `m.find("hello")` inside the if-initializer; prints only on a hit. -/
def mainLines : List String :=
  match m.lookup "hello" with
  | some v => ["Found: " ++ toString v]
  | none => []

def mainRet : Int := 0

end Cpp17IfInit

/-! Source file cpp17/nested_namespaces.cpp -/

namespace Cpp17NestedNamespaces

def fooLine : String := "A::B::C::foo()"

def mainLines : List String := [fooLine]

def mainRet : Int := 0

end Cpp17NestedNamespaces

/-! Source file cpp17/parallel_algorithms.cpp -/

namespace Cpp17ParallelAlgorithms

/-- After the parallel sort, `main` prints one fixed line. -/
def mainLines : List String := ["Sorted in parallel"]

def mainRet : Int := 0

end Cpp17ParallelAlgorithms

/-! Source file cpp17/string_view.cpp -/

namespace Cpp17StringView

def printLine (sv : String) : String := sv

def mainLines : List String := [printLine "Hello, world!"]

def mainRet : Int := 0

end Cpp17StringView

/-! Source file cpp17/structured_bindings.cpp -/

namespace Cpp17StructuredBindings

/-- Embeds `auto [x, y, z] = make_tuple(1, 2.3, "hello")`; `d` is the formatted text
of the double `2.3`. -/
def mainLines (d : String) : List String :=
  [toString (1 : Int) ++ ", " ++ d ++ ", " ++ "hello"]

def mainRet : Int := 0

end Cpp17StructuredBindings

/-! Source file cpp17/template_argument_deduction.cpp -/

namespace Cpp17TemplateArgumentDeduction

/-- Embeds `MyClass c(42)` stores 42 in `c.value`. -/
def value : Int := 42

def mainLines : List String := [toString value]

def mainRet : Int := 0

end Cpp17TemplateArgumentDeduction

/-! Source file cpp17/variant.cpp -/

namespace Cpp17Variant

/-- The variant holds the string alternative `"hello"`. -/
def mainLines : List String := ["hello"]

def mainRet : Int := 0

end Cpp17Variant

/-! Source file cpp17/filesystem.cpp -/

namespace Cpp17Filesystem

/-- Embeds `std::cout << p` prints the path quoted. -/
def quotedPath (p : String) : String := "\"" ++ p ++ "\""

/-- The program prints the current path, which depends on the process's working
directory, so it is a parameter `p`. -/
def mainLines (p : String) : List String := ["Current path: " ++ quotedPath p]

def mainRet : Int := 0

end Cpp17Filesystem

/-! Source file cpp23/constexpr_containers.cpp -/

namespace Cpp23ConstexprContainers

/-- Embeds `create_vector()` pushes 1, 2, 3. -/
def create_vector : List Int := [1, 2, 3]

/-- Embeds `create_string()` builds `"Hello" + ", world!"`. -/
def create_string : String := "Hello" ++ ", world!"

def mainLines : List String :=
  ["Vector size: " ++ toString create_vector.length, "String: " ++ create_string]

def mainRet : Int := 0

end Cpp23ConstexprContainers

/-! Source file cpp23/deducing_this.cpp -/

namespace Cpp23DeducingThis

/-- Embeds `s.foo()` picks the non-const overload, `cs.foo()` the const one. -/
def fooLine (isConst : Bool) : String :=
  if isConst then "Const foo" else "Non-const foo"

def mainLines : List String := [fooLine false, fooLine true]

def mainRet : Int := 0

end Cpp23DeducingThis

/-! Source file cpp23/flat_containers.cpp -/

namespace Cpp23FlatContainers

/-- The `flat_map` keeps its entries sorted by key. -/
def map : List (Int × String) := [(1, "one"), (2, "two"), (3, "three")]

/-- The range-for prints one `key: value` line per entry. -/
def mainLines : List String :=
  map.map (fun kv => toString kv.1 ++ ": " ++ kv.2)

def mainRet : Int := 0

end Cpp23FlatContainers

/-! Source file cpp23/if_consteval.cpp -/

namespace Cpp23IfConsteval

/-- The consteval branch: the recursive factorial. -/
def factorial_ct (n : Int) : Int :=
  if n ≤ 1 then 1 else n * factorial_ct (n - 1)
termination_by n.toNat
decreasing_by simp_wf; omega

/-- The runtime branch: `result = 1; for (i = 2; i <= n; ++i) result *= i`. -/
def factorial_rt (n : Int) : Int :=
  (List.range' 2 (n - 1).toNat).foldl (fun r i => r * (i : Int)) 1

def mainLines : List String :=
  ["Compile-time result: " ++ toString (factorial_ct 5),
   "Runtime result: " ++ toString (factorial_rt 5)]

def mainRet : Int := 0

end Cpp23IfConsteval

/-! Source file cpp23/mdspan.cpp -/

namespace Cpp23Mdspan

def data : List Int := [1, 2, 3, 4, 5, 6]

/-- The `mdspan` views `data` as a 2 x 3 row-major matrix. -/
def matrix (i j : Nat) : Int := data.getD (i * 3 + j) 0

/-- One output line per row: the row entries each followed by a space. -/
def mainLines : List String :=
  (List.range 2).map (fun i =>
    String.join ((List.range 3).map (fun j => toString (matrix i j) ++ " ")))

def mainRet : Int := 0

end Cpp23Mdspan

/-! Source file cpp23/static_operator_brackets.cpp -/

namespace Cpp23StaticOperatorBrackets

/-- The static `operator[]`: `i < size ? i + 1 : 0` with `size = 3`. -/
def bracket (i : Nat) : Int := if i < 3 then (i : Int) + 1 else 0

/-- Both subscript uses in `main` go through the static `operator[]`. -/
def mainLines : List String := [toString (bracket 1), toString (bracket 2)]

def mainRet : Int := 0

end Cpp23StaticOperatorBrackets

/-! Source file cpp23/string_view_contains.cpp -/

namespace Cpp23StringViewContains

/-- Character-list version of "pat occurs at the start of hay". -/
def listStarts : List Char → List Char → Bool
  | [], _ => true
  | _ :: _, [] => false
  | c :: cs, d :: ds => c == d && listStarts cs ds

/-- Substring search: does `pat` occur anywhere in `hay`? -/
def listContains : List Char → List Char → Bool
  | [], pat => pat.isEmpty
  | c :: rest, pat => listStarts pat (c :: rest) || listContains rest pat

/-- Embeds `std::string_view::contains`. -/
def svContains (s pat : String) : Bool := listContains s.toList pat.toList

def sv : String := "Hello, world!"

/-- Embeds `std::cout <<` formats a `bool` as `1` or `0` by default. -/
def boolText (b : Bool) : String := if b then "1" else "0"

def mainLines : List String :=
  ["Contains world: " ++ boolText (svContains sv "world"),
   "Contains World: " ++ boolText (svContains sv "World")]

def mainRet : Int := 0

end Cpp23StringViewContains

/-! Source file cpp23/modules_improvements.cpp -/

namespace Cpp23ModulesImprovements

/-- The module file exports `hello()` but defines no `main` (the example
`main` is only shown in a comment); it is not a runnable program. -/
def helloLine : String := "Hello from my_module!"

end Cpp23ModulesImprovements

/-- Does the string `l` start with the text `pre`? (Character-list version,
so that concrete instances evaluate inside the kernel.) -/
def startsWithText (pre l : String) : Bool :=
  Cpp23StringViewContains.listStarts pre.toList l.toList

/-! The collection of runnable example programs

`programs` gathers, for every source file that defines a `main`, the pair
of its output lines and its return value. The parameters are the
environment-dependent output pieces listed at the top of the file. -/

def programs (t fsPath : String) (movedSize : Nat)
    (dVariadic dGeneric fPi dPi dBind : String)
    (writerFirst : Bool) : List (List String × Int) :=
  [(Cpp11Chrono.mainLines t, Cpp11Chrono.mainRet),
   (Cpp11Constexpr.mainLines, Cpp11Constexpr.mainRet),
   (Cpp11LambdaExpressions.mainLines, Cpp11LambdaExpressions.mainRet),
   (Cpp11MoveSemantics.mainLines movedSize, Cpp11MoveSemantics.mainRet),
   (Cpp11RvalueReferences.mainLines, Cpp11RvalueReferences.mainRet),
   (Cpp11StaticAssert.mainLines, Cpp11StaticAssert.mainRet),
   (Cpp11TypeTraits.mainLines, Cpp11TypeTraits.mainRet),
   (Cpp11VariadicTemplates.mainLines dVariadic, Cpp11VariadicTemplates.mainRet),
   (Cpp14GenericLambdas.mainLines dGeneric, Cpp14GenericLambdas.mainRet),
   (Cpp14SharedMutex.mainLines writerFirst, Cpp14SharedMutex.mainRet),
   (Cpp14VariableTemplates.mainLines fPi dPi, Cpp14VariableTemplates.mainRet),
   (Cpp17ConstexprIf.mainLines, Cpp17ConstexprIf.mainRet),
   (Cpp17Filesystem.mainLines fsPath, Cpp17Filesystem.mainRet),
   (Cpp17IfInit.mainLines, Cpp17IfInit.mainRet),
   (Cpp17NestedNamespaces.mainLines, Cpp17NestedNamespaces.mainRet),
   (Cpp17Optional.mainLines, Cpp17Optional.mainRet),
   (Cpp17ParallelAlgorithms.mainLines, Cpp17ParallelAlgorithms.mainRet),
   (Cpp17StringView.mainLines, Cpp17StringView.mainRet),
   (Cpp17StructuredBindings.mainLines dBind, Cpp17StructuredBindings.mainRet),
   (Cpp17TemplateArgumentDeduction.mainLines, Cpp17TemplateArgumentDeduction.mainRet),
   (Cpp17Variant.mainLines, Cpp17Variant.mainRet),
   (Cpp23ConstexprContainers.mainLines, Cpp23ConstexprContainers.mainRet),
   (Cpp23DeducingThis.mainLines, Cpp23DeducingThis.mainRet),
   (Cpp23Expected.mainLines, Cpp23Expected.mainRet),
   (Cpp23FlatContainers.mainLines, Cpp23FlatContainers.mainRet),
   (Cpp23Generator.mainLines, Cpp23Generator.mainRet),
   (Cpp23IfConsteval.mainLines, Cpp23IfConsteval.mainRet),
   (Cpp23Mdspan.mainLines, Cpp23Mdspan.mainRet),
   (Cpp23OptionalMonadic.mainLines, Cpp23OptionalMonadic.mainRet),
   (Cpp23StaticOperatorBrackets.mainLines, Cpp23StaticOperatorBrackets.mainRet),
   (Cpp23StringViewContains.mainLines, Cpp23StringViewContains.mainRet)]

/-! Helper lemmas shared by the claim theorems. -/

theorem factorial_five : Cpp11Constexpr.factorial 5 = 120 := by
  rw [Cpp11Constexpr.factorial, Cpp11Constexpr.factorial, Cpp11Constexpr.factorial,
    Cpp11Constexpr.factorial, Cpp11Constexpr.factorial]
  norm_num

theorem constexpr_mainLines_eq : Cpp11Constexpr.mainLines = ["120"] := by
  unfold Cpp11Constexpr.mainLines
  rw [factorial_five]
  decide

/-- Claim C1: for every pair of ints `(a, b)`, the optional `divide` returns
an empty optional iff `b = 0`, the expected `divide` returns the
`Division by zero` error iff `b = 0`, and otherwise both return a value
holding the truncated integer quotient of `a` by `b`. -/
theorem claim_C1_divide_empty_iff_zero (a b : Int) :
    (Cpp17Optional.divide a b = none ↔ b = 0) ∧
    (Cpp23Expected.divide a b = Except.error "Division by zero" ↔ b = 0) ∧
    (b = 0 ∨ (Cpp17Optional.divide a b = some (Int.tdiv a b) ∧
      Cpp23Expected.divide a b = Except.ok (Int.tdiv a b))) := by
  by_cases hb : b = 0 <;> simp [Cpp17Optional.divide, Cpp23Expected.divide, hb]

/-- Claim C2, counterexample: the shared-mutex program prints different
standard-output text on two runs that differ only in which thread acquires
the lock first (`["Read: 0", "Write: 1"]` versus `["Write: 1", "Read: 1"]`),
so its output is not the same on every run. -/
theorem claim_C2_counterexample :
    Cpp14SharedMutex.mainLines false ≠ Cpp14SharedMutex.mainLines true := by decide

/-- Claim C2, amended: the printed output of each example is deterministic
except where it depends on the runtime environment; in particular the listed
sequential examples always print the same fixed lines, while for the
shared-mutex example there are two schedules whose runs print different
text (both the Read/Write ordering and the Read value differ). -/
theorem claim_C2_determinism_amended :
    Cpp11Constexpr.mainLines = ["120"] ∧
    Cpp17Optional.mainLines = ["Result: 5"] ∧
    Cpp17IfInit.mainLines = ["Found: 42"] ∧
    Cpp23Expected.mainLines = ["Result: 5"] ∧
    Cpp23OptionalMonadic.mainLines = ["Result: 4"] ∧
    Cpp23Generator.mainLines = ["0 1 1 2 3 5 8 13 21 34 "] ∧
    Cpp23FlatContainers.mainLines = ["1: one", "2: two", "3: three"] ∧
    (∃ s₁ s₂ : Bool, Cpp14SharedMutex.mainLines s₁ ≠ Cpp14SharedMutex.mainLines s₂) :=
  ⟨constexpr_mainLines_eq, by decide, by decide, by decide, by decide, by decide,
   by decide, ⟨false, true, by decide⟩⟩

/-- Claim C3, counterexample: the flat-containers program writes three lines
to standard output (one per map entry), not at most two. -/
theorem claim_C3_counterexample : ¬ Cpp23FlatContainers.mainLines.length ≤ 2 := by decide

/-- Claim C3, amended: every example program that defines a `main` writes at
most three lines to standard output and then exits with a success status
(`main` returns 0), for every value of the environment-dependent output
pieces and every thread schedule. -/
theorem claim_C3_output_bound_amended (t fsPath : String) (movedSize : Nat)
    (dVariadic dGeneric fPi dPi dBind : String) (writerFirst : Bool) :
    ((programs t fsPath movedSize dVariadic dGeneric fPi dPi dBind writerFirst).all
      (fun pr => pr.1.length ≤ 3 && pr.2 == 0)) = true := by
  cases writerFirst <;> rfl

/-- Claim C4: in the constexpr example, `factorial 5` evaluates to 120 and
the program's single line of output is the text `120`. -/
theorem claim_C4_factorial_120 :
    Cpp11Constexpr.factorial 5 = 120 ∧ Cpp11Constexpr.mainLines = ["120"] :=
  ⟨factorial_five, constexpr_mainLines_eq⟩

/-- Claim C5: the generator example consumes exactly the first 10 Fibonacci
numbers of the infinite generator, in order, and prints the single line
`0 1 1 2 3 5 8 13 21 34 ` (each value followed by a space, the line closed
by a newline). -/
theorem claim_C5_generator_output :
    Cpp23Generator.taken = [0, 1, 1, 2, 3, 5, 8, 13, 21, 34] ∧
    Cpp23Generator.taken.length = 10 ∧
    Cpp23Generator.taken = (List.range 10).map (fun n => (Cpp23Generator.fibState n).1) ∧
    Cpp23Generator.mainLines = ["0 1 1 2 3 5 8 13 21 34 "] := by
  refine ⟨by decide, by decide, by decide, by decide⟩

/-- Claim C6: in the monadic-optional example the final `or_else` substitutes
the default value 0 exactly when the preceding chain produced an empty
optional (a held value passes through unchanged), and for every `a` the
chain starting from `safe_divide a 0` yields the result 0. -/
theorem claim_C6_or_else_fallback (a b : Int) :
    (Cpp23OptionalMonadic.chain a b = none → Cpp23OptionalMonadic.result a b = 0) ∧
    (∀ v, Cpp23OptionalMonadic.chain a b = some v → Cpp23OptionalMonadic.result a b = v) ∧
    Cpp23OptionalMonadic.result a 0 = 0 := by
  refine ⟨?_, ?_, ?_⟩
  · intro h
    simp [Cpp23OptionalMonadic.result, Cpp23OptionalMonadic.or_else, h]
  · intro v h
    simp [Cpp23OptionalMonadic.result, Cpp23OptionalMonadic.or_else, h]
  · simp [Cpp23OptionalMonadic.result, Cpp23OptionalMonadic.or_else,
      Cpp23OptionalMonadic.chain, Cpp23OptionalMonadic.safe_divide,
      Cpp23OptionalMonadic.and_then, Cpp23OptionalMonadic.transform]

/-- Claim C6, witness: at `a = 10, b = 0` the chain is empty and the result
is the substituted 0; at `a = 10, b = 2` the chain holds 4 and the result
is that 4. -/
theorem claim_C6_witness :
    Cpp23OptionalMonadic.result 10 0 = 0 ∧ Cpp23OptionalMonadic.result 10 2 = 4 :=
  ⟨(claim_C6_or_else_fallback 10 0).1 (by decide),
   (claim_C6_or_else_fallback 10 2).2.1 4 (by decide)⟩

/-- Claim C7: the shared-mutex example spawns exactly two threads, the reader
acquiring the lock in shared mode and the writer in exclusive mode; on every
schedule each thread prints exactly one line (one `Read: ` line and one
`Write: ` line), the writer increments `shared_data` exactly once (its final
value is 1 from the initial 0), and `main` returns 0 after both threads have
run to completion and been joined. -/
theorem claim_C7_shared_mutex (s : Bool) :
    Cpp14SharedMutex.threads.length = 2 ∧
    Cpp14SharedMutex.threads.map Prod.fst =
      [Cpp14SharedMutex.LockMode.shared, Cpp14SharedMutex.LockMode.exclusive] ∧
    (Cpp14SharedMutex.run s).2.length = 2 ∧
    (Cpp14SharedMutex.run s).2.countP (fun l => startsWithText "Read: " l) = 1 ∧
    (Cpp14SharedMutex.run s).2.countP (fun l => startsWithText "Write: " l) = 1 ∧
    (Cpp14SharedMutex.run s).1 = 1 ∧
    Cpp14SharedMutex.mainRet = 0 := by
  cases s <;> decide

/-- Claim C8: the optional-based `divide` and the expected-based `divide` are
equivalent as partial functions: for every `(a, b)` the optional version
holds a value iff the expected version holds a value, and they hold the same
value. -/
theorem claim_C8_optional_expected_equiv (a b : Int) :
    ((Cpp17Optional.divide a b).isSome = true ↔
      ∃ q, Cpp23Expected.divide a b = Except.ok q) ∧
    (∀ q : Int, Cpp17Optional.divide a b = some q ↔
      Cpp23Expected.divide a b = Except.ok q) := by
  by_cases hb : b = 0 <;> simp [Cpp17Optional.divide, Cpp23Expected.divide, hb]

/-- Claim C9: in each of the three division helpers the division is evaluated
only on the branch where the divisor is nonzero: replacing the division
operation by any other operation that agrees with it on nonzero divisors
leaves every result unchanged, so the behaviour of each (total) function
never depends on a division by zero; and each helper is the instance of its
abstracted form at truncating division. -/
theorem claim_C9_division_guarded (d₁ d₂ : Int → Int → Int)
    (h : ∀ x y, y ≠ 0 → d₁ x y = d₂ x y) (a b : Int) :
    Cpp17Optional.divideWith d₁ a b = Cpp17Optional.divideWith d₂ a b ∧
    Cpp23Expected.divideWith d₁ a b = Cpp23Expected.divideWith d₂ a b ∧
    Cpp23OptionalMonadic.safe_divideWith d₁ a b =
      Cpp23OptionalMonadic.safe_divideWith d₂ a b ∧
    Cpp17Optional.divide a b = Cpp17Optional.divideWith Int.tdiv a b ∧
    Cpp23Expected.divide a b = Cpp23Expected.divideWith Int.tdiv a b ∧
    Cpp23OptionalMonadic.safe_divide a b =
      Cpp23OptionalMonadic.safe_divideWith Int.tdiv a b := by
  by_cases hb : b = 0 <;>
    simp [Cpp17Optional.divideWith, Cpp23Expected.divideWith,
      Cpp23OptionalMonadic.safe_divideWith, Cpp17Optional.divide,
      Cpp23Expected.divide, Cpp23OptionalMonadic.safe_divide, hb]
  exact h a b hb

/-- Claim C9, witness: instantiated at truncating division against a division
operation that returns 37 on a zero divisor, at `a = 10, b = 0`. -/
theorem claim_C9_witness :
    Cpp17Optional.divideWith Int.tdiv 10 0 =
      Cpp17Optional.divideWith (fun x y => if y = 0 then 37 else Int.tdiv x y) 10 0 ∧
    Cpp23Expected.divideWith Int.tdiv 10 0 =
      Cpp23Expected.divideWith (fun x y => if y = 0 then 37 else Int.tdiv x y) 10 0 ∧
    Cpp23OptionalMonadic.safe_divideWith Int.tdiv 10 0 =
      Cpp23OptionalMonadic.safe_divideWith (fun x y => if y = 0 then 37 else Int.tdiv x y) 10 0 ∧
    Cpp17Optional.divide 10 0 = Cpp17Optional.divideWith Int.tdiv 10 0 ∧
    Cpp23Expected.divide 10 0 = Cpp23Expected.divideWith Int.tdiv 10 0 ∧
    Cpp23OptionalMonadic.safe_divide 10 0 =
      Cpp23OptionalMonadic.safe_divideWith Int.tdiv 10 0 :=
  claim_C9_division_guarded Int.tdiv (fun x y => if y = 0 then 37 else Int.tdiv x y)
    (by intro x y hy; simp [hy]) 10 0

/-- Claim C10: the recursive `factorial` is a total function on the integers:
every argument `n ≤ 1` (including zero and all negatives) returns 1
immediately, and for `n > 1` it satisfies the recurrence
`factorial n = n * factorial (n - 1)`, whose argument strictly decreases
toward the base case. -/
theorem claim_C10_factorial_total (n : Int) :
    (n ≤ 1 → Cpp11Constexpr.factorial n = 1) ∧
    (1 < n → Cpp11Constexpr.factorial n = n * Cpp11Constexpr.factorial (n - 1)) := by
  constructor
  · intro h
    rw [Cpp11Constexpr.factorial]
    simp [h]
  · intro h
    rw [Cpp11Constexpr.factorial]
    have hn : ¬ n ≤ 1 := by omega
    simp [hn]

/-- Claim C10, witness: the base case at the negative argument `-7` and the
recurrence at `3`. -/
theorem claim_C10_witness :
    Cpp11Constexpr.factorial (-7) = 1 ∧
    Cpp11Constexpr.factorial 3 = 3 * Cpp11Constexpr.factorial 2 :=
  ⟨(claim_C10_factorial_total (-7)).1 (by decide),
   (claim_C10_factorial_total 3).2 (by decide)⟩
